import Mathlib

/-!
Verification of the wallet / ledger core of the HNG13 Stage-9 service.

The definitions below are a shallow embedding of
src/modules/wallet/wallet.service.ts: the persistent store is a pair of
lists (wallet rows, transaction rows), balances and amounts are rationals,
TypeORM findOne is List.find? (first matching row), a row save inside a
store transaction is saveRow (replace every row with the same primary key),
and each service method is a pure function from the committed state before
the call to either an error (the thrown exception: the whole store
transaction rolls back, so the committed state is unchanged) or the
committed state after the call.  A runtime crash on a broken relation
(dereferencing a missing wallet row) is modelled as Option.none.
-/

namespace WalletService

/-- Wallet entity row: id (primary key), owning user id, externally facing
wallet number, balance in major currency units. -/
structure Wallet where
  id : Nat
  userId : Nat
  walletNumber : String
  balance : Rat
deriving DecidableEq

/-- TransactionType enum from transaction.entity. -/
inductive TransactionType where
  | deposit
  | transfer_out
  | transfer_in
deriving DecidableEq

/-- TransactionStatus enum from transaction.entity. -/
inductive TransactionStatus where
  | pending
  | success
  | failed
deriving DecidableEq

/-- Structured view of the JSON metadata blob stored on a transaction row.
Each field is one of the keys the service actually writes; a key that was
never written is none (matching an absent key in the parsed JSON object). -/
structure Metadata where
  webhook_received : Option Bool := none
  success_time : Option String := none
  paystack_response : Option String := none
  failure_reason : Option String := none
  failure_time : Option String := none
  transfer_type : Option String := none
  recipient_wallet : Option String := none
  sender_wallet : Option String := none
  initiated_by : Option String := none
  sender_email : Option String := none
deriving DecidableEq

/-- Transaction (ledger entry) row. reference is optional: transfer rows are
created without one (see transfer below). -/
structure Transaction where
  id : Nat
  walletId : Nat
  type : TransactionType
  amount : Rat
  status : TransactionStatus
  reference : Option String
  recipientWalletNumber : Option String
  senderWalletNumber : Option String
  metadata : Option Metadata
deriving DecidableEq

/-- The committed database state: wallet rows and transaction rows. -/
structure DBState where
  wallets : List Wallet
  transactions : List Transaction
deriving DecidableEq

/-- The exceptions thrown by the service: NotFoundException and
BadRequestException, each with its message. -/
inductive WalletError where
  | notFound (msg : String)
  | badRequest (msg : String)
deriving DecidableEq

/-- Authenticated caller identity (the fields of User the service reads). -/
structure User where
  id : Nat
  email : String
deriving DecidableEq

/-- DepositDto. -/
structure DepositDto where
  amount : Rat
deriving DecidableEq

/-- TransferDto. -/
structure TransferDto where
  wallet_number : String
  amount : Rat
deriving DecidableEq

/-- walletRepository.findOne where userId = ... -/
def findWalletByUserId (s : DBState) (userId : Nat) : Option Wallet :=
  s.wallets.find? fun w => decide (w.userId = userId)

/-- findOne Wallet where walletNumber = ... -/
def findWalletByNumber (s : DBState) (wn : String) : Option Wallet :=
  s.wallets.find? fun w => decide (w.walletNumber = wn)

/-- Resolution of a wallet relation / foreign key by wallet id. -/
def findWalletById (s : DBState) (i : Nat) : Option Wallet :=
  s.wallets.find? fun w => decide (w.id = i)

/-- findOne Transaction where reference = ... -/
def findTransactionByReference (s : DBState) (r : String) : Option Transaction :=
  s.transactions.find? fun t => decide (t.reference = some r)

/-- Saving a row: every stored row with the same primary key is replaced by
the saved row (TypeORM save by primary key inside the open transaction). -/
def saveRow {α : Type} (key : α → Nat) (l : List α) (a : α) : List α :=
  l.map fun x => if key x = key a then a else x

/-- The pending deposit entry created by initiateDeposit (lines 59 to 67). -/
def pendingDepositTx (w : Wallet) (dto : DepositDto) (reference : String) (newId : Nat) :
    Transaction :=
  { id := newId
    walletId := w.id
    type := TransactionType.deposit
    amount := dto.amount
    status := TransactionStatus.pending
    reference := some reference
    recipientWalletNumber := none
    senderWalletNumber := none
    metadata := none }

/-- initiateDeposit (lines 34 to 84): look up the caller wallet, validate the
minimum amount, persist a pending deposit entry for a fresh reference.  The
gateway call happens after the entry is committed and does not mutate the
store, so the committed-state effect is fully captured here. -/
def initiateDeposit (s : DBState) (user : User) (dto : DepositDto)
    (reference : String) (newId : Nat) : Except WalletError (DBState × String) :=
  match findWalletByUserId s user.id with
  | none => Except.error (WalletError.notFound "Wallet not found")
  | some w =>
    if dto.amount < 100 then
      Except.error (WalletError.badRequest "Minimum deposit amount is ₦100")
    else
      Except.ok
        ({ s with transactions := s.transactions ++ [pendingDepositTx w dto reference newId] },
          reference)

/-- The data object of a Paystack charge webhook payload: reference, amount
in minor units (kobo), optional gateway_response string. -/
structure ChargeData where
  reference : String
  amount : Rat
  gateway_response : Option String
deriving DecidableEq

/-- Models the JS expression payload.data.gateway_response || success:
a missing or empty response string falls back to the literal success. -/
def gatewayResponseOrSuccess (g : Option String) : String :=
  match g with
  | none => "success"
  | some r => if r = "" then "success" else r

/-- Metadata merge performed by handleSuccessfulCharge (lines 144 to 148):
parse the existing metadata (or start from an empty object) and set the
webhook_received flag, the success timestamp and the gateway response. -/
def successMeta (m : Option Metadata) (d : ChargeData) (now : String) : Metadata :=
  { m.getD {} with
    webhook_received := some true
    success_time := some now
    paystack_response := some (gatewayResponseOrSuccess d.gateway_response) }

/-- The transaction row as saved by handleSuccessfulCharge (lines 140 to 150). -/
def successTx (t : Transaction) (d : ChargeData) (now : String) : Transaction :=
  { t with
    status := TransactionStatus.success
    metadata := some (successMeta t.metadata d now) }

/-- Metadata merge performed by handleFailedCharge (lines 204 to 209). -/
def failedMeta (m : Option Metadata) (d : ChargeData) (now : String) : Metadata :=
  { m.getD {} with
    failure_reason := d.gateway_response
    failure_time := some now
    webhook_received := some true }

/-- The transaction row as saved by handleFailedCharge (lines 201 to 211). -/
def failedTx (t : Transaction) (d : ChargeData) (now : String) : Transaction :=
  { t with
    status := TransactionStatus.failed
    metadata := some (failedMeta t.metadata d now) }

/-- handleSuccessfulCharge (lines 106 to 171).  One store transaction: find
the entry by reference (with its wallet relation); missing entry throws
NotFound; an entry already in success status commits a no-op; otherwise the
entry is set to success with merged metadata and the owning wallet is
credited by amount divided by 100 (kobo to naira), all committed atomically.
A missing wallet row behind the relation would crash at the dereference and
roll back: modelled as none. -/
def handleSuccessfulCharge (s : DBState) (d : ChargeData) (now : String) :
    Option (Except WalletError DBState) :=
  match findTransactionByReference s d.reference with
  | none =>
    some (Except.error (WalletError.notFound
      ("Transaction with reference " ++ d.reference ++ " not found")))
  | some t =>
    if t.status = TransactionStatus.success then
      some (Except.ok s)
    else
      match findWalletById s t.walletId with
      | none => none
      | some w =>
        some (Except.ok
          { wallets := saveRow Wallet.id s.wallets
              { w with balance := w.balance + d.amount / 100 }
            transactions := saveRow Transaction.id s.transactions (successTx t d now) })

/-- handleFailedCharge (lines 173 to 224).  One store transaction: find the
entry by reference; missing entry throws NotFound; an entry already in
failed status commits a no-op; otherwise the entry is set to failed with
merged failure metadata.  No wallet balance is touched. -/
def handleFailedCharge (s : DBState) (d : ChargeData) (now : String) :
    Except WalletError DBState :=
  match findTransactionByReference s d.reference with
  | none =>
    Except.error (WalletError.notFound
      ("Transaction with reference " ++ d.reference ++ " not found"))
  | some t =>
    if t.status = TransactionStatus.failed then
      Except.ok s
    else
      Except.ok
        { s with transactions := saveRow Transaction.id s.transactions (failedTx t d now) }

/-- A verified gateway webhook event, as dispatched by handlePaystackWebhook. -/
inductive WebhookEvent where
  | chargeSuccess (data : ChargeData)
  | chargeFailed (data : ChargeData)
  | unhandled (event : String)
deriving DecidableEq

/-- handlePaystackWebhook (lines 86 to 104): dispatch on the event kind;
unhandled events are logged and leave the state unchanged. -/
def handlePaystackWebhook (s : DBState) (e : WebhookEvent) (now : String) :
    Option (Except WalletError DBState) :=
  match e with
  | WebhookEvent.chargeSuccess d => handleSuccessfulCharge s d now
  | WebhookEvent.chargeFailed d => some (handleFailedCharge s d now)
  | WebhookEvent.unhandled _ => some (Except.ok s)

/-- The response shape of getDepositStatus. -/
structure DepositStatusResponse where
  reference : Option String
  status : TransactionStatus
  amount : Rat
  metadata : Option Metadata
deriving DecidableEq

/-- getDepositStatus (lines 226 to 264): look up the entry by reference
(NotFound if absent), check that the owning wallet belongs to the caller
(BadRequest Unauthorized otherwise), and only then return the entry data.
A broken wallet relation would crash at the userId dereference: none. -/
def getDepositStatus (s : DBState) (user : User) (reference : String) :
    Option (Except WalletError DepositStatusResponse) :=
  match findTransactionByReference s reference with
  | none => some (Except.error (WalletError.notFound "Transaction not found"))
  | some t =>
    match findWalletById s t.walletId with
    | none => none
    | some w =>
      if w.userId ≠ user.id then
        some (Except.error (WalletError.badRequest "Unauthorized access to transaction"))
      else
        some (Except.ok
          { reference := t.reference
            status := t.status
            amount := t.amount
            metadata := t.metadata })

/-- getBalance (lines 266 to 283). -/
def getBalance (s : DBState) (user : User) : Except WalletError (Rat × String) :=
  match findWalletByUserId s user.id with
  | none => Except.error (WalletError.notFound "Wallet not found")
  | some w => Except.ok (w.balance, w.walletNumber)

/-- The transfer-out entry created by transfer (lines 344 to 355): success
status, the recipient wallet number as counterparty, actor metadata, and no
reference field. -/
def outgoingTx (sw rw : Wallet) (u : User) (dto : TransferDto) (outId : Nat) : Transaction :=
  { id := outId
    walletId := sw.id
    type := TransactionType.transfer_out
    amount := dto.amount
    status := TransactionStatus.success
    reference := none
    recipientWalletNumber := some rw.walletNumber
    senderWalletNumber := none
    metadata := some
      { transfer_type := some "outgoing"
        recipient_wallet := some rw.walletNumber
        initiated_by := some u.email } }

/-- The transfer-in entry created by transfer (lines 357 to 368). -/
def incomingTx (sw rw : Wallet) (u : User) (dto : TransferDto) (inId : Nat) : Transaction :=
  { id := inId
    walletId := rw.id
    type := TransactionType.transfer_in
    amount := dto.amount
    status := TransactionStatus.success
    reference := none
    recipientWalletNumber := none
    senderWalletNumber := some sw.walletNumber
    metadata := some
      { transfer_type := some "incoming"
        sender_wallet := some sw.walletNumber
        sender_email := some u.email } }

/-- transfer (lines 285 to 390).  Validate the minimum amount; inside one
store transaction lock and load the sender wallet (by owner id) then the
recipient wallet (by wallet number); reject self transfer and insufficient
balance; debit the sender, credit the recipient, and append the two success
entries; commit.  Every thrown error rolls the whole transaction back.  The
transferReference argument models the string generated at line 341: note
that the source never writes it to either created transaction row. -/
def transfer (s : DBState) (user : User) (dto : TransferDto)
    (transferReference : String) (outId inId : Nat) : Except WalletError DBState :=
  if dto.amount < 100 then
    Except.error (WalletError.badRequest "Minimum transfer amount is ₦100")
  else
    match findWalletByUserId s user.id with
    | none => Except.error (WalletError.notFound "Sender wallet not found")
    | some senderWallet =>
      match findWalletByNumber s dto.wallet_number with
      | none => Except.error (WalletError.notFound "Recipient wallet not found")
      | some recipientWallet =>
        if senderWallet.id = recipientWallet.id then
          Except.error (WalletError.badRequest "Cannot transfer to yourself")
        else if senderWallet.balance < dto.amount then
          Except.error (WalletError.badRequest "Insufficient balance")
        else
          Except.ok
            { wallets := saveRow Wallet.id
                (saveRow Wallet.id s.wallets
                  { senderWallet with balance := senderWallet.balance - dto.amount })
                { recipientWallet with balance := recipientWallet.balance + dto.amount }
              transactions := s.transactions ++
                [outgoingTx senderWallet recipientWallet user dto outId,
                 incomingTx senderWallet recipientWallet user dto inId] }

/-- The sequence of pessimistic_write row locks requested by transfer
(lines 302 to 320), as the list of locked wallet ids in acquisition order:
the sender row (looked up by owner id) is locked first, then the recipient
row (looked up by wallet number).  Empty while validation fails before the
store transaction opens. -/
def transferLocks (s : DBState) (user : User) (dto : TransferDto) : List Nat :=
  if dto.amount < 100 then []
  else
    match findWalletByUserId s user.id with
    | none => []
    | some senderWallet =>
      match findWalletByNumber s dto.wallet_number with
      | none => [senderWallet.id]
      | some recipientWallet => [senderWallet.id, recipientWallet.id]

/-- One caller-facing operation of the engine, with all the data the call
needs (including the fresh identifiers and timestamps the source draws from
its environment). -/
inductive Op where
  | balanceQuery (user : User)
  | deposit (user : User) (dto : DepositDto) (reference : String) (newId : Nat)
  | transferOp (user : User) (dto : TransferDto) (transferReference : String) (outId inId : Nat)
  | webhook (e : WebhookEvent) (now : String)
  | depositStatus (user : User) (reference : String)

/-- The committed state after one operation: a successful call commits its
new state; a thrown error (or a crash) rolls the store transaction back and
leaves the committed state unchanged; reads never write. -/
def applyOp (s : DBState) (op : Op) : DBState :=
  match op with
  | Op.balanceQuery _ => s
  | Op.depositStatus _ _ => s
  | Op.deposit u dto ref newId =>
    match initiateDeposit s u dto ref newId with
    | Except.ok r => r.1
    | Except.error _ => s
  | Op.transferOp u dto tref outId inId =>
    match transfer s u dto tref outId inId with
    | Except.ok s₁ => s₁
    | Except.error _ => s
  | Op.webhook e now =>
    match handlePaystackWebhook s e now with
    | some (Except.ok s₁) => s₁
    | some (Except.error _) => s
    | none => s

/-- Every wallet row has a non-negative balance. -/
def nonNegBalances (s : DBState) : Prop :=
  ∀ w ∈ s.wallets, 0 ≤ w.balance

instance (s : DBState) : Decidable (nonNegBalances s) :=
  inferInstanceAs (Decidable (∀ w ∈ s.wallets, 0 ≤ w.balance))

/-- An operation carries a monetary (non-negative) notified amount: the only
amount an operation injects into a balance without a guard is the one on a
charge-succeeded webhook event. -/
def opAmountsOk : Op → Bool
  | Op.webhook (WebhookEvent.chargeSuccess d) _ => decide (0 ≤ d.amount)
  | _ => true

/-- Extracts the committed state of a successful call, with a fallback. -/
def okState (e : Except WalletError DBState) (dflt : DBState) : DBState :=
  match e with
  | Except.ok s => s
  | Except.error _ => dflt

/-- Concrete wallet A: id 1, owner 1, number WN-A, balance 1000. -/
def wA : Wallet := { id := 1, userId := 1, walletNumber := "WN-A", balance := 1000 }

/-- Concrete wallet B: id 2, owner 2, number WN-B, balance 500. -/
def wB : Wallet := { id := 2, userId := 2, walletNumber := "WN-B", balance := 500 }

/-- Owner of wallet A. -/
def alice : User := { id := 1, email := "alice@example.com" }

/-- Owner of wallet B. -/
def bob : User := { id := 2, email := "bob@example.com" }

/-- Two wallets, no ledger entries. -/
def baseState : DBState := { wallets := [wA, wB], transactions := [] }

/-- A pending deposit entry of 5000 on wallet A under reference TXN_REF_1. -/
def pendingDep : Transaction :=
  { id := 7
    walletId := 1
    type := TransactionType.deposit
    amount := 5000
    status := TransactionStatus.pending
    reference := some "TXN_REF_1"
    recipientWalletNumber := none
    senderWalletNumber := none
    metadata := none }

/-- State holding the pending deposit entry. -/
def depState : DBState := { wallets := [wA, wB], transactions := [pendingDep] }

/-- A deposit entry on wallet A already in success status. -/
def succTx0 : Transaction :=
  { id := 8
    walletId := 1
    type := TransactionType.deposit
    amount := 200
    status := TransactionStatus.success
    reference := some "TXN_REF_2"
    recipientWalletNumber := none
    senderWalletNumber := none
    metadata := none }

/-- State holding the already successful deposit entry. -/
def succState : DBState := { wallets := [wA, wB], transactions := [succTx0] }

/-- A deposit entry on wallet B already in failed status. -/
def failedDep : Transaction :=
  { id := 9
    walletId := 2
    type := TransactionType.deposit
    amount := 700
    status := TransactionStatus.failed
    reference := some "TXN_REF_3"
    recipientWalletNumber := none
    senderWalletNumber := none
    metadata := none }

/-- State holding the failed deposit entry. -/
def failedState : DBState := { wallets := [wA, wB], transactions := [failedDep] }

/-- Transfer request of 300 from the caller to wallet B. -/
def c1Dto : TransferDto := { wallet_number := "WN-B", amount := 300 }

/-- Committed state after the concrete 300 transfer from A to B. -/
def c1After : DBState := okState (transfer baseState alice c1Dto "TRANSFER_R1" 10 11) baseState

/-- Charge-succeeded payload for TXN_REF_2 (already successful entry). -/
def c2Data : ChargeData :=
  { reference := "TXN_REF_2", amount := 20000, gateway_response := some "Approved" }

/-- A concrete operation sequence: initiate a deposit, reconcile its success
webhook, then transfer 300 to wallet B. -/
def c3Ops : List Op :=
  [Op.deposit alice { amount := 5000 } "TXN_REF_9" 30,
   Op.webhook (WebhookEvent.chargeSuccess
     { reference := "TXN_REF_9", amount := 500000, gateway_response := some "Approved" }) "T1",
   Op.transferOp alice { wallet_number := "WN-B", amount := 300 } "TRANSFER_R3" 31 32]

/-- Transfer request of 50, below the minimum of 100. -/
def c4Dto : TransferDto := { wallet_number := "WN-B", amount := 50 }

/-- Charge-succeeded payload for TXN_REF_1: 500000 minor units. -/
def c5Data : ChargeData :=
  { reference := "TXN_REF_1", amount := 500000, gateway_response := some "Approved" }

/-- Charge-succeeded payload for the failed entry TXN_REF_3. -/
def c6Data : ChargeData :=
  { reference := "TXN_REF_3", amount := 70000, gateway_response := none }

/-- Transfer request of 400 from the caller to wallet B. -/
def c7Dto : TransferDto := { wallet_number := "WN-B", amount := 400 }

/-- Committed state after the concrete 400 transfer from A to B. -/
def c7After : DBState :=
  okState (transfer baseState alice c7Dto "TRANSFER_1700000000000_deadbeef" 20 21) baseState

/-- The reference fields of all ledger entries committed by the concrete 400
transfer (some if the transfer succeeded, none if it errored). -/
def c7Refs : Option (List (Option String)) :=
  match transfer baseState alice c7Dto "TRANSFER_1700000000000_deadbeef" 20 21 with
  | Except.ok s₁ => some (s₁.transactions.map Transaction.reference)
  | Except.error _ => none

/-- Sender wallet for the lock-order scenario: id 5, owner 9. -/
def wS9 : Wallet := { id := 5, userId := 9, walletNumber := "WN-S9", balance := 1000 }

/-- Recipient wallet for the lock-order scenario: id 2, owner 8. -/
def wR9 : Wallet := { id := 2, userId := 8, walletNumber := "WN-R9", balance := 0 }

/-- State for the lock-order scenario: sender id above recipient id. -/
def lockState : DBState := { wallets := [wS9, wR9], transactions := [] }

/-- Owner of the lock-order sender wallet. -/
def user9 : User := { id := 9, email := "s9@example.com" }

/-- Transfer request of 500 to wallet WN-R9. -/
def dto9 : TransferDto := { wallet_number := "WN-R9", amount := 500 }

/-- Charge-failed payload for TXN_REF_2 (entry already in success status). -/
def c10Data : ChargeData :=
  { reference := "TXN_REF_2", amount := 0, gateway_response := some "Declined" }

/-- Saving a row b that satisfies the search predicate, over a list whose
first predicate match was a row with the same key, makes b the first match. -/
theorem find?_saveRow_same {α : Type} (key : α → Nat) (p : α → Bool) (l : List α)
    (a b : α) (h : l.find? p = some a) (hk : key b = key a) (hp : p b = true) :
    (saveRow key l b).find? p = some b := by
  induction l with
  | nil => simp [List.find?] at h
  | cons x xs ih =>
    by_cases hx : p x = true
    · rw [List.find?_cons_of_pos _ hx] at h
      injection h with h
      subst h
      simp only [saveRow, List.map_cons]
      rw [if_pos hk.symm, List.find?_cons_of_pos _ hp]
    · rw [List.find?_cons_of_neg _ hx] at h
      have ih2 := ih h
      simp only [saveRow, List.map_cons] at ih2 ⊢
      by_cases hkx : key x = key b
      · rw [if_pos hkx, List.find?_cons_of_pos _ hp]
      · rw [if_neg hkx, List.find?_cons_of_neg _ hx]
        exact ih2

/-- Saving a row whose key family cannot satisfy the search predicate leaves
the search result unchanged. -/
theorem find?_saveRow_none {α : Type} (key : α → Nat) (p : α → Bool) (l : List α)
    (b : α) (hall : ∀ x, key x = key b → p x = false) :
    (saveRow key l b).find? p = l.find? p := by
  induction l with
  | nil => rfl
  | cons x xs ih =>
    simp only [saveRow, List.map_cons] at ih ⊢
    by_cases hkx : key x = key b
    · have hpx : p x = false := hall x hkx
      have hpb : p b = false := hall b rfl
      rw [if_pos hkx, List.find?_cons_of_neg _ (by simp [hpb]),
        List.find?_cons_of_neg _ (by simp [hpx])]
      exact ih
    · rw [if_neg hkx]
      by_cases hpx : p x = true
      · rw [List.find?_cons_of_pos _ hpx, List.find?_cons_of_pos _ hpx]
      · rw [List.find?_cons_of_neg _ hpx, List.find?_cons_of_neg _ hpx]
        exact ih

/-- Every row of a list after a save is either the saved row or an original
row. -/
theorem mem_saveRow {α : Type} (key : α → Nat) {l : List α} {b x : α}
    (hx : x ∈ saveRow key l b) : x = b ∨ x ∈ l := by
  simp only [saveRow, List.mem_map] at hx
  obtain ⟨y, hy, hxy⟩ := hx
  by_cases h : key y = key b
  · rw [if_pos h] at hxy
    exact Or.inl hxy.symm
  · rw [if_neg h] at hxy
    exact Or.inr (hxy ▸ hy)

/-- A list containing a row satisfying the predicate has a first match, and
that first match satisfies the predicate. -/
theorem find?_exists_of_mem {α : Type} {p : α → Bool} {l : List α} {x : α}
    (hm : x ∈ l) (hp : p x = true) :
    ∃ y, l.find? p = some y ∧ p y = true := by
  induction l with
  | nil => cases hm
  | cons a as ih =>
    by_cases ha : p a = true
    · exact ⟨a, List.find?_cons_of_pos _ ha, ha⟩
    · rw [List.find?_cons_of_neg _ ha]
      rcases List.mem_cons.mp hm with h | h
      · subst h
        exact absurd hp ha
      · exact ih h

/-- Shape of a successful transfer: the guards that were passed and the
exact committed state. -/
theorem transfer_ok_shape (s : DBState) (u : User) (dto : TransferDto) (tref : String)
    (outId inId : Nat) (s₁ : DBState)
    (h : transfer s u dto tref outId inId = Except.ok s₁) :
    ∃ sw rw,
      findWalletByUserId s u.id = some sw ∧
      findWalletByNumber s dto.wallet_number = some rw ∧
      ¬ dto.amount < 100 ∧ sw.id ≠ rw.id ∧ ¬ sw.balance < dto.amount ∧
      s₁ = { wallets := saveRow Wallet.id
               (saveRow Wallet.id s.wallets
                 { sw with balance := sw.balance - dto.amount })
               { rw with balance := rw.balance + dto.amount }
             transactions := s.transactions ++
               [outgoingTx sw rw u dto outId, incomingTx sw rw u dto inId] } := by
  unfold transfer at h
  split at h
  · simp at h
  · rename_i ha
    split at h
    · simp at h
    · rename_i sw hsw
      split at h
      · simp at h
      · rename_i rw hrw
        split at h
        · simp at h
        · rename_i hid
          split at h
          · simp at h
          · rename_i hbal
            injection h with h
            exact ⟨sw, rw, hsw, hrw, ha, hid, hbal, h.symm⟩

/-- Shape of a successful charge-succeeded reconciliation: either the
idempotent no-op on an already successful entry, or the full processing with
the exact committed state. -/
theorem successCharge_ok_shape (s : DBState) (d : ChargeData) (now : String) (s₁ : DBState)
    (h : handleSuccessfulCharge s d now = some (Except.ok s₁)) :
    (∃ t, findTransactionByReference s d.reference = some t ∧
      t.status = TransactionStatus.success ∧ s₁ = s) ∨
    (∃ t w, findTransactionByReference s d.reference = some t ∧
      ¬ t.status = TransactionStatus.success ∧
      findWalletById s t.walletId = some w ∧
      s₁ = { wallets := saveRow Wallet.id s.wallets
               { w with balance := w.balance + d.amount / 100 }
             transactions := saveRow Transaction.id s.transactions (successTx t d now) }) := by
  unfold handleSuccessfulCharge at h
  split at h
  · simp at h
  · rename_i t ht
    split at h
    · rename_i hst
      simp only [Option.some.injEq] at h
      injection h with h
      exact Or.inl ⟨t, ht, hst, h.symm⟩
    · rename_i hst
      split at h
      · simp at h
      · rename_i w hw
        simp only [Option.some.injEq] at h
        injection h with h
        exact Or.inr ⟨t, w, ht, hst, hw, h.symm⟩

/-- Shape of a successful charge-failed reconciliation: either the
idempotent no-op on an already failed entry, or the failure processing with
the exact committed state. -/
theorem failedCharge_ok_shape (s : DBState) (d : ChargeData) (now : String) (s₁ : DBState)
    (h : handleFailedCharge s d now = Except.ok s₁) :
    (∃ t, findTransactionByReference s d.reference = some t ∧
      t.status = TransactionStatus.failed ∧ s₁ = s) ∨
    (∃ t, findTransactionByReference s d.reference = some t ∧
      ¬ t.status = TransactionStatus.failed ∧
      s₁ = { s with
        transactions := saveRow Transaction.id s.transactions (failedTx t d now) }) := by
  unfold handleFailedCharge at h
  split at h
  · simp at h
  · rename_i t ht
    split at h
    · rename_i hst
      injection h with h
      exact Or.inl ⟨t, ht, hst, h.symm⟩
    · rename_i hst
      injection h with h
      exact Or.inr ⟨t, ht, hst, h.symm⟩

/-- A successful initiateDeposit leaves the wallet rows untouched. -/
theorem initiateDeposit_ok_wallets (s : DBState) (u : User) (dto : DepositDto)
    (ref : String) (newId : Nat) (r : DBState × String)
    (h : initiateDeposit s u dto ref newId = Except.ok r) :
    r.1.wallets = s.wallets := by
  unfold initiateDeposit at h
  split at h
  · simp at h
  · split at h
    · simp at h
    · injection h with h
      rw [← h]

/-- A charge-succeeded event on an entry already in success status commits a
no-op and reports success. -/
theorem successCharge_noop (s : DBState) (d : ChargeData) (now : String) (t : Transaction)
    (ht : findTransactionByReference s d.reference = some t)
    (hst : t.status = TransactionStatus.success) :
    handleSuccessfulCharge s d now = some (Except.ok s) := by
  unfold handleSuccessfulCharge
  rw [ht]
  simp [hst]

/-- A charge-failed event on an entry already in failed status commits a
no-op and reports success. -/
theorem failedCharge_noop (s : DBState) (d : ChargeData) (now : String) (t : Transaction)
    (ht : findTransactionByReference s d.reference = some t)
    (hst : t.status = TransactionStatus.failed) :
    handleFailedCharge s d now = Except.ok s := by
  unfold handleFailedCharge
  rw [ht]
  simp [hst]

/-- A charge-succeeded event on an existing entry that is not yet successful
commits, in one atomic state, the entry rewritten to success with merged
metadata and the owning wallet credited by the notified amount over 100. -/
theorem successCharge_processes (s : DBState) (d : ChargeData) (now : String)
    (t : Transaction) (w : Wallet)
    (ht : findTransactionByReference s d.reference = some t)
    (hst : ¬ t.status = TransactionStatus.success)
    (hw : findWalletById s t.walletId = some w) :
    ∃ s₁, handleSuccessfulCharge s d now = some (Except.ok s₁) ∧
      findTransactionByReference s₁ d.reference = some (successTx t d now) ∧
      findWalletById s₁ t.walletId = some { w with balance := w.balance + d.amount / 100 } := by
  refine ⟨{ wallets := saveRow Wallet.id s.wallets
              { w with balance := w.balance + d.amount / 100 }
            transactions := saveRow Transaction.id s.transactions (successTx t d now) },
    ?_, ?_, ?_⟩
  · unfold handleSuccessfulCharge
    rw [ht]
    simp only [if_neg hst]
    rw [hw]
  · have ht2 : s.transactions.find? (fun x => decide (x.reference = some d.reference)) =
        some t := ht
    have hpt := List.find?_some ht2
    exact find?_saveRow_same Transaction.id _ s.transactions t (successTx t d now) ht2 rfl hpt
  · have hw2 : s.wallets.find? (fun x => decide (x.id = t.walletId)) = some w := hw
    have hpw := List.find?_some hw2
    exact find?_saveRow_same Wallet.id _ s.wallets w
      { w with balance := w.balance + d.amount / 100 } hw2 rfl hpw

/-- A charge-failed event on an existing entry that is not yet failed
commits the entry rewritten to failed with merged failure metadata, without
touching any wallet row. -/
theorem failedCharge_processes (s : DBState) (d : ChargeData) (now : String)
    (t : Transaction)
    (ht : findTransactionByReference s d.reference = some t)
    (hst : ¬ t.status = TransactionStatus.failed) :
    ∃ s₁, handleFailedCharge s d now = Except.ok s₁ ∧
      s₁.wallets = s.wallets ∧
      findTransactionByReference s₁ d.reference = some (failedTx t d now) := by
  refine ⟨{ s with transactions := saveRow Transaction.id s.transactions (failedTx t d now) },
    ?_, rfl, ?_⟩
  · unfold handleFailedCharge
    rw [ht]
    simp [hst]
  · have ht2 : s.transactions.find? (fun x => decide (x.reference = some d.reference)) =
        some t := ht
    have hpt := List.find?_some ht2
    exact find?_saveRow_same Transaction.id _ s.transactions t (failedTx t d now) ht2 rfl hpt

/-- C1: for every Transfer call that succeeds, the sum of the sender and
recipient balances after the operation equals the sum before it: the debit
of the sender by amount and the credit of the recipient by the same amount
are both part of the single committed result state, so no committed state
shows the sender debited without the recipient credited. -/
theorem transfer_conserves_total_balance (s : DBState) (u : User) (dto : TransferDto)
    (tref : String) (outId inId : Nat) (s₁ : DBState)
    (h : transfer s u dto tref outId inId = Except.ok s₁) :
    ∃ sw rw sw₁ rw₁,
      findWalletByUserId s u.id = some sw ∧
      findWalletByNumber s dto.wallet_number = some rw ∧
      findWalletById s₁ sw.id = some sw₁ ∧
      findWalletById s₁ rw.id = some rw₁ ∧
      sw₁.balance = sw.balance - dto.amount ∧
      rw₁.balance = rw.balance + dto.amount ∧
      sw₁.balance + rw₁.balance = sw.balance + rw.balance := by
  obtain ⟨sw, rw, hsw, hrw, ha, hid, hbal, heq⟩ := transfer_ok_shape s u dto tref outId inId s₁ h
  subst heq
  have hsw2 : s.wallets.find? (fun x => decide (x.userId = u.id)) = some sw := hsw
  have hrw2 : s.wallets.find? (fun x => decide (x.walletNumber = dto.wallet_number)) =
      some rw := hrw
  have hmem_s : sw ∈ s.wallets := List.mem_of_find?_eq_some hsw2
  have hmem_r : rw ∈ s.wallets := List.mem_of_find?_eq_some hrw2
  obtain ⟨x, hx, hpx⟩ :=
    find?_exists_of_mem (p := fun y => decide (y.id = sw.id)) hmem_s (by simp)
  obtain ⟨x2, hx2, hpx2⟩ :=
    find?_exists_of_mem (p := fun y => decide (y.id = rw.id)) hmem_r (by simp)
  have hxid : x.id = sw.id := of_decide_eq_true hpx
  have hx2id : x2.id = rw.id := of_decide_eq_true hpx2
  have hinner : (saveRow Wallet.id s.wallets
        { sw with balance := sw.balance - dto.amount }).find?
      (fun y => decide (y.id = sw.id)) =
      some { sw with balance := sw.balance - dto.amount } :=
    find?_saveRow_same Wallet.id _ s.wallets x _ hx hxid.symm (by simp)
  have hall1 : ∀ y : Wallet,
      Wallet.id y = Wallet.id ({ rw with balance := rw.balance + dto.amount } : Wallet) →
      (fun y => decide (y.id = sw.id)) y = false := by
    intro y hy
    have hy2 : y.id = rw.id := hy
    show decide (y.id = sw.id) = false
    simp only [hy2, decide_eq_false_iff_not]
    exact fun hc => hid hc.symm
  have hall2 : ∀ y : Wallet,
      Wallet.id y = Wallet.id ({ sw with balance := sw.balance - dto.amount } : Wallet) →
      (fun y => decide (y.id = rw.id)) y = false := by
    intro y hy
    have hy2 : y.id = sw.id := hy
    show decide (y.id = rw.id) = false
    simp only [hy2, decide_eq_false_iff_not]
    exact hid
  have hinner2 : (saveRow Wallet.id s.wallets
        { sw with balance := sw.balance - dto.amount }).find?
      (fun y => decide (y.id = rw.id)) =
      s.wallets.find? (fun y => decide (y.id = rw.id)) :=
    find?_saveRow_none Wallet.id _ s.wallets _ hall2
  refine ⟨sw, rw, { sw with balance := sw.balance - dto.amount },
    { rw with balance := rw.balance + dto.amount }, hsw, hrw, ?_, ?_, rfl, rfl, by ring⟩
  · show (saveRow Wallet.id (saveRow Wallet.id s.wallets
        { sw with balance := sw.balance - dto.amount })
        { rw with balance := rw.balance + dto.amount }).find?
      (fun y => decide (y.id = sw.id)) =
      some { sw with balance := sw.balance - dto.amount }
    rw [find?_saveRow_none Wallet.id _ _ _ hall1]
    exact hinner
  · show (saveRow Wallet.id (saveRow Wallet.id s.wallets
        { sw with balance := sw.balance - dto.amount })
        { rw with balance := rw.balance + dto.amount }).find?
      (fun y => decide (y.id = rw.id)) =
      some { rw with balance := rw.balance + dto.amount }
    exact find?_saveRow_same Wallet.id _ _ x2 _ (by rw [hinner2]; exact hx2)
      hx2id.symm (by simp)

/-- C1 witness: the conservation theorem applied to the concrete 300
transfer from wallet A (balance 1000) to wallet B (balance 500). -/
theorem transfer_conserves_total_balance_witness :
    ∃ sw rw sw₁ rw₁,
      findWalletByUserId baseState alice.id = some sw ∧
      findWalletByNumber baseState c1Dto.wallet_number = some rw ∧
      findWalletById c1After sw.id = some sw₁ ∧
      findWalletById c1After rw.id = some rw₁ ∧
      sw₁.balance = sw.balance - c1Dto.amount ∧
      rw₁.balance = rw.balance + c1Dto.amount ∧
      sw₁.balance + rw₁.balance = sw.balance + rw.balance :=
  transfer_conserves_total_balance baseState alice c1Dto "TRANSFER_R1" 10 11 c1After rfl

/-- C4: transfer fails BadRequest with the minimum-amount message when
amount is below 100 (the InvalidAmount case), NotFound when the sender or
the recipient wallet does not exist, BadRequest cannot-transfer-to-yourself
when sender and recipient are the same wallet (the InvalidOperation case),
and BadRequest insufficient-balance when the sender balance is below the
amount (the InsufficientFunds case); and every failing transfer leaves the
committed state unchanged, so no balance changes and no entry is created. -/
theorem transfer_error_semantics :
    (∀ s u dto tref outId inId, (dto : TransferDto).amount < 100 →
      transfer s u dto tref outId inId =
        Except.error (WalletError.badRequest "Minimum transfer amount is ₦100")) ∧
    (∀ s u dto tref outId inId, ¬ (dto : TransferDto).amount < 100 →
      findWalletByUserId s (u : User).id = none →
      transfer s u dto tref outId inId =
        Except.error (WalletError.notFound "Sender wallet not found")) ∧
    (∀ s u dto tref outId inId sw, ¬ (dto : TransferDto).amount < 100 →
      findWalletByUserId s (u : User).id = some sw →
      findWalletByNumber s dto.wallet_number = none →
      transfer s u dto tref outId inId =
        Except.error (WalletError.notFound "Recipient wallet not found")) ∧
    (∀ s u dto tref outId inId sw rw, ¬ (dto : TransferDto).amount < 100 →
      findWalletByUserId s (u : User).id = some sw →
      findWalletByNumber s dto.wallet_number = some rw →
      sw.id = rw.id →
      transfer s u dto tref outId inId =
        Except.error (WalletError.badRequest "Cannot transfer to yourself")) ∧
    (∀ s u dto tref outId inId sw rw, ¬ (dto : TransferDto).amount < 100 →
      findWalletByUserId s (u : User).id = some sw →
      findWalletByNumber s dto.wallet_number = some rw →
      sw.id ≠ rw.id →
      sw.balance < dto.amount →
      transfer s u dto tref outId inId =
        Except.error (WalletError.badRequest "Insufficient balance")) ∧
    (∀ s u dto tref outId inId e, transfer s u dto tref outId inId = Except.error e →
      applyOp s (Op.transferOp u dto tref outId inId) = s) := by
  refine ⟨?_, ?_, ?_, ?_, ?_, ?_⟩
  · intro s u dto tref outId inId h
    simp only [transfer, if_pos h]
  · intro s u dto tref outId inId h1 h2
    simp only [transfer, if_neg h1, h2]
  · intro s u dto tref outId inId sw h1 h2 h3
    simp only [transfer, if_neg h1, h2, h3]
  · intro s u dto tref outId inId sw rw h1 h2 h3 h4
    simp only [transfer, if_neg h1, h2, h3, if_pos h4]
  · intro s u dto tref outId inId sw rw h1 h2 h3 h4 h5
    simp only [transfer, if_neg h1, h2, h3, if_neg h4, if_pos h5]
  · intro s u dto tref outId inId e h
    simp only [applyOp, h]

/-- C4 witness: a transfer of 50 (below the minimum of 100) fails with the
minimum-amount error. -/
theorem transfer_error_semantics_witness :
    transfer baseState alice c4Dto "TRANSFER_R4" 12 13 =
      Except.error (WalletError.badRequest "Minimum transfer amount is ₦100") :=
  transfer_error_semantics.1 baseState alice c4Dto "TRANSFER_R4" 12 13 (by decide)

/-- C9 counterexample: at a concrete state where the sender wallet has id 5
and the recipient wallet has id 2, transfer requests its two row locks as
[5, 2] - the caller-supplied sender-then-recipient order, which is not
ascending wallet id order.  This refutes the claim that the locks are
acquired in a deterministic ascending-id order and never in caller-supplied
order. -/
theorem transfer_lock_order_not_ascending_cex :
    transferLocks lockState user9 dto9 = [5, 2] ∧
    transferLocks lockState user9 dto9 ≠ [2, 5] := by
  constructor
  · decide
  · decide

/-- C9 amended: in every Transfer whose validation passes and whose two
wallets exist, the two row locks are acquired in caller-supplied
sender-then-recipient order - the sender row first, the recipient row
second - regardless of the wallet ids, not in ascending wallet id order. -/
theorem transfer_locks_sender_then_recipient (s : DBState) (u : User) (dto : TransferDto)
    (sw rw : Wallet) (ha : ¬ dto.amount < 100)
    (hsw : findWalletByUserId s u.id = some sw)
    (hrw : findWalletByNumber s dto.wallet_number = some rw) :
    transferLocks s u dto = [sw.id, rw.id] := by
  simp only [transferLocks, if_neg ha, hsw, hrw]

/-- C9 witness: the amended lock-order theorem applied at the concrete
lock-order state. -/
theorem transfer_locks_sender_then_recipient_witness :
    transferLocks lockState user9 dto9 = [wS9.id, wR9.id] :=
  transfer_locks_sender_then_recipient lockState user9 dto9 wS9 wR9 (by decide) rfl rfl

/-- C7 counterexample: the concrete 400 transfer from wallet A to wallet B
succeeds and commits exactly two ledger entries, and the reference field of
both committed entries is empty - in particular neither carries the freshly
generated transfer reference string that was passed in.  This refutes the
claim that both entries carry the generated shared transfer reference. -/
theorem transfer_reference_not_stored_cex : c7Refs = some [none, none] := by decide

/-- C7 amended: every successful Transfer creates exactly two ledger
entries - a transfer-out on the sender wallet and a transfer-in on the
recipient wallet - both in success status, each carrying the counterparty
wallet number; the freshly generated transfer reference is not stored on
either entry (their reference field is empty). -/
theorem transfer_creates_two_counterparty_entries (s : DBState) (u : User)
    (dto : TransferDto) (tref : String) (outId inId : Nat) (s₁ : DBState)
    (h : transfer s u dto tref outId inId = Except.ok s₁) :
    ∃ sw rw,
      findWalletByUserId s u.id = some sw ∧
      findWalletByNumber s dto.wallet_number = some rw ∧
      s₁.transactions = s.transactions ++
        [outgoingTx sw rw u dto outId, incomingTx sw rw u dto inId] ∧
      (outgoingTx sw rw u dto outId).walletId = sw.id ∧
      (outgoingTx sw rw u dto outId).type = TransactionType.transfer_out ∧
      (outgoingTx sw rw u dto outId).status = TransactionStatus.success ∧
      (outgoingTx sw rw u dto outId).amount = dto.amount ∧
      (outgoingTx sw rw u dto outId).recipientWalletNumber = some rw.walletNumber ∧
      (outgoingTx sw rw u dto outId).reference = none ∧
      (incomingTx sw rw u dto inId).walletId = rw.id ∧
      (incomingTx sw rw u dto inId).type = TransactionType.transfer_in ∧
      (incomingTx sw rw u dto inId).status = TransactionStatus.success ∧
      (incomingTx sw rw u dto inId).amount = dto.amount ∧
      (incomingTx sw rw u dto inId).senderWalletNumber = some sw.walletNumber ∧
      (incomingTx sw rw u dto inId).reference = none := by
  obtain ⟨sw, rw, hsw, hrw, _, _, _, heq⟩ := transfer_ok_shape s u dto tref outId inId s₁ h
  subst heq
  exact ⟨sw, rw, hsw, hrw, rfl, rfl, rfl, rfl, rfl, rfl, rfl, rfl, rfl, rfl, rfl, rfl, rfl⟩

/-- C7 witness: the amended two-entries theorem applied to the concrete 400
transfer from wallet A to wallet B. -/
theorem transfer_creates_two_counterparty_entries_witness :
    ∃ sw rw,
      findWalletByUserId baseState alice.id = some sw ∧
      findWalletByNumber baseState c7Dto.wallet_number = some rw ∧
      c7After.transactions = baseState.transactions ++
        [outgoingTx sw rw alice c7Dto 20, incomingTx sw rw alice c7Dto 21] ∧
      (outgoingTx sw rw alice c7Dto 20).walletId = sw.id ∧
      (outgoingTx sw rw alice c7Dto 20).type = TransactionType.transfer_out ∧
      (outgoingTx sw rw alice c7Dto 20).status = TransactionStatus.success ∧
      (outgoingTx sw rw alice c7Dto 20).amount = c7Dto.amount ∧
      (outgoingTx sw rw alice c7Dto 20).recipientWalletNumber = some rw.walletNumber ∧
      (outgoingTx sw rw alice c7Dto 20).reference = none ∧
      (incomingTx sw rw alice c7Dto 21).walletId = rw.id ∧
      (incomingTx sw rw alice c7Dto 21).type = TransactionType.transfer_in ∧
      (incomingTx sw rw alice c7Dto 21).status = TransactionStatus.success ∧
      (incomingTx sw rw alice c7Dto 21).amount = c7Dto.amount ∧
      (incomingTx sw rw alice c7Dto 21).senderWalletNumber = some sw.walletNumber ∧
      (incomingTx sw rw alice c7Dto 21).reference = none :=
  transfer_creates_two_counterparty_entries baseState alice c7Dto
    "TRANSFER_1700000000000_deadbeef" 20 21 c7After rfl

/-- C2: webhook reconciliation is idempotent.  A charge-succeeded event on
an entry already in success status commits a no-op and returns success;
applying the same charge-succeeded event a second time (at any later
timestamp) leaves the committed state exactly as after the first
application, so a wallet is never double-credited; and symmetrically a
charge-failed event on an already failed entry is a no-op, and a second
application of the same charge-failed event changes nothing. -/
theorem webhook_reconciliation_idempotent :
    (∀ s d now t, findTransactionByReference s (d : ChargeData).reference = some t →
      t.status = TransactionStatus.success →
      handleSuccessfulCharge s d now = some (Except.ok s)) ∧
    (∀ s d now now₂ s₁, handleSuccessfulCharge s d now = some (Except.ok s₁) →
      handleSuccessfulCharge s₁ d now₂ = some (Except.ok s₁)) ∧
    (∀ s d now t, findTransactionByReference s (d : ChargeData).reference = some t →
      t.status = TransactionStatus.failed →
      handleFailedCharge s d now = Except.ok s) ∧
    (∀ s d now now₂ s₁, handleFailedCharge s d now = Except.ok s₁ →
      handleFailedCharge s₁ d now₂ = Except.ok s₁) := by
  refine ⟨?_, ?_, ?_, ?_⟩
  · intro s d now t ht hst
    exact successCharge_noop s d now t ht hst
  · intro s d now now₂ s₁ h
    rcases successCharge_ok_shape s d now s₁ h with ⟨t, ht, hst, rfl⟩ | ⟨t, w, ht, hst, hw, rfl⟩
    · exact successCharge_noop _ d now₂ t ht hst
    · have ht2 : s.transactions.find? (fun x => decide (x.reference = some d.reference)) =
          some t := ht
      have hpt := List.find?_some ht2
      have hfind : findTransactionByReference
          { wallets := saveRow Wallet.id s.wallets
              { w with balance := w.balance + d.amount / 100 }
            transactions := saveRow Transaction.id s.transactions (successTx t d now) }
          d.reference = some (successTx t d now) :=
        find?_saveRow_same Transaction.id _ s.transactions t (successTx t d now) ht2 rfl hpt
      exact successCharge_noop _ d now₂ (successTx t d now) hfind rfl
  · intro s d now t ht hst
    exact failedCharge_noop s d now t ht hst
  · intro s d now now₂ s₁ h
    rcases failedCharge_ok_shape s d now s₁ h with ⟨t, ht, hst, rfl⟩ | ⟨t, ht, hst, rfl⟩
    · exact failedCharge_noop _ d now₂ t ht hst
    · have ht2 : s.transactions.find? (fun x => decide (x.reference = some d.reference)) =
          some t := ht
      have hpt := List.find?_some ht2
      have hfind : findTransactionByReference
          { s with transactions := saveRow Transaction.id s.transactions (failedTx t d now) }
          d.reference = some (failedTx t d now) :=
        find?_saveRow_same Transaction.id _ s.transactions t (failedTx t d now) ht2 rfl hpt
      exact failedCharge_noop _ d now₂ (failedTx t d now) hfind rfl

/-- C2 witness: redelivering a charge-succeeded event for an entry already
in success status commits a no-op at the concrete state. -/
theorem webhook_reconciliation_idempotent_witness :
    handleSuccessfulCharge succState c2Data "T2" = some (Except.ok succState) :=
  webhook_reconciliation_idempotent.1 succState c2Data "T2" succTx0 rfl rfl

/-- C5: a charge-succeeded event for an existing entry not already in
success status commits, in one atomic state transition, the entry set to
success with the received flag, success timestamp and gateway response
merged into its existing metadata (successMeta keeps every other field of
the parsed metadata), and the owning wallet credited by exactly the
notified minor-unit amount divided by 100. -/
theorem success_charge_credits_wallet (s : DBState) (d : ChargeData) (now : String)
    (t : Transaction) (w : Wallet)
    (ht : findTransactionByReference s d.reference = some t)
    (hst : ¬ t.status = TransactionStatus.success)
    (hw : findWalletById s t.walletId = some w) :
    ∃ s₁, handleSuccessfulCharge s d now = some (Except.ok s₁) ∧
      findTransactionByReference s₁ d.reference = some (successTx t d now) ∧
      (successTx t d now).status = TransactionStatus.success ∧
      (successTx t d now).metadata = some (successMeta t.metadata d now) ∧
      findWalletById s₁ t.walletId = some { w with balance := w.balance + d.amount / 100 } := by
  obtain ⟨s₁, h1, h2, h3⟩ := successCharge_processes s d now t w ht hst hw
  exact ⟨s₁, h1, h2, rfl, rfl, h3⟩

/-- C5 witness: the notified amount 500000 in minor units credits exactly
5000 major units, taking wallet A from 1000 to 6000, and the pending entry
becomes success at the concrete state. -/
theorem success_charge_credits_wallet_witness :
    wA.balance + c5Data.amount / 100 = 6000 ∧
    ∃ s₁, handleSuccessfulCharge depState c5Data "T1" = some (Except.ok s₁) ∧
      findTransactionByReference s₁ c5Data.reference = some (successTx pendingDep c5Data "T1") ∧
      (successTx pendingDep c5Data "T1").status = TransactionStatus.success ∧
      (successTx pendingDep c5Data "T1").metadata =
        some (successMeta pendingDep.metadata c5Data "T1") ∧
      findWalletById s₁ pendingDep.walletId =
        some { wA with balance := wA.balance + c5Data.amount / 100 } :=
  ⟨by norm_num [wA, c5Data],
    success_charge_credits_wallet depState c5Data "T1" pendingDep wA rfl (by decide) rfl⟩

/-- C6: a charge-succeeded event for an entry whose status is failed is
re-processed to success - the entry becomes success and the owning wallet
is credited - rather than being rejected as a conflicting terminal state. -/
theorem failed_entry_recovered_by_success_event (s : DBState) (d : ChargeData) (now : String)
    (t : Transaction) (w : Wallet)
    (ht : findTransactionByReference s d.reference = some t)
    (hst : t.status = TransactionStatus.failed)
    (hw : findWalletById s t.walletId = some w) :
    ∃ s₁, handleSuccessfulCharge s d now = some (Except.ok s₁) ∧
      findTransactionByReference s₁ d.reference = some (successTx t d now) ∧
      (successTx t d now).status = TransactionStatus.success ∧
      findWalletById s₁ t.walletId = some { w with balance := w.balance + d.amount / 100 } := by
  have hst2 : ¬ t.status = TransactionStatus.success := by simp [hst]
  obtain ⟨s₁, h1, h2, h3⟩ := successCharge_processes s d now t w ht hst2 hw
  exact ⟨s₁, h1, h2, rfl, h3⟩

/-- C6 witness: the failed entry TXN_REF_3 is recovered to success and
wallet B is credited at the concrete state. -/
theorem failed_entry_recovered_by_success_event_witness :
    ∃ s₁, handleSuccessfulCharge failedState c6Data "T3" = some (Except.ok s₁) ∧
      findTransactionByReference s₁ c6Data.reference = some (successTx failedDep c6Data "T3") ∧
      (successTx failedDep c6Data "T3").status = TransactionStatus.success ∧
      findWalletById s₁ failedDep.walletId =
        some { wB with balance := wB.balance + c6Data.amount / 100 } :=
  failed_entry_recovered_by_success_event failedState c6Data "T3" failedDep wB rfl rfl rfl

/-- C10: a charge-failed event for an entry whose status is already success
is not treated as a no-op: the entry is rewritten from success to failed
with failure metadata, while the wallet rows - including the balance the
earlier success credited - are left completely unchanged. -/
theorem failed_event_overrides_success_entry (s : DBState) (d : ChargeData) (now : String)
    (t : Transaction)
    (ht : findTransactionByReference s d.reference = some t)
    (hst : t.status = TransactionStatus.success) :
    ∃ s₁, handleFailedCharge s d now = Except.ok s₁ ∧
      s₁.wallets = s.wallets ∧
      findTransactionByReference s₁ d.reference = some (failedTx t d now) ∧
      (failedTx t d now).status = TransactionStatus.failed ∧
      (failedTx t d now).metadata = some (failedMeta t.metadata d now) := by
  have hst2 : ¬ t.status = TransactionStatus.failed := by simp [hst]
  obtain ⟨s₁, h1, h2, h3⟩ := failedCharge_processes s d now t ht hst2
  exact ⟨s₁, h1, h2, h3, rfl, rfl⟩

/-- C10 witness: a charge-failed event on the already successful entry
TXN_REF_2 marks it failed and leaves the wallet rows unchanged at the
concrete state. -/
theorem failed_event_overrides_success_entry_witness :
    ∃ s₁, handleFailedCharge succState c10Data "T9" = Except.ok s₁ ∧
      s₁.wallets = succState.wallets ∧
      findTransactionByReference s₁ c10Data.reference = some (failedTx succTx0 c10Data "T9") ∧
      (failedTx succTx0 c10Data "T9").status = TransactionStatus.failed ∧
      (failedTx succTx0 c10Data "T9").metadata =
        some (failedMeta succTx0.metadata c10Data "T9") :=
  failed_event_overrides_success_entry succState c10Data "T9" succTx0 rfl rfl

/-- Each single committed operation preserves non-negativity of all wallet
balances, provided the operation carries a monetary notified amount. -/
theorem applyOp_nonNeg (s : DBState) (op : Op) (h0 : nonNegBalances s)
    (hop : opAmountsOk op = true) : nonNegBalances (applyOp s op) := by
  cases op with
  | balanceQuery u => exact h0
  | depositStatus u r => exact h0
  | deposit u dto ref newId =>
    cases hd : initiateDeposit s u dto ref newId with
    | ok r =>
      have hred : applyOp s (Op.deposit u dto ref newId) = r.1 := by
        simp only [applyOp]
        rw [hd]
      rw [hred]
      have hw := initiateDeposit_ok_wallets s u dto ref newId r hd
      intro w hwm
      rw [hw] at hwm
      exact h0 w hwm
    | error e =>
      have hred : applyOp s (Op.deposit u dto ref newId) = s := by
        simp only [applyOp]
        rw [hd]
      rw [hred]
      exact h0
  | transferOp u dto tref outId inId =>
    cases ht : transfer s u dto tref outId inId with
    | error e =>
      have hred : applyOp s (Op.transferOp u dto tref outId inId) = s := by
        simp only [applyOp]
        rw [ht]
      rw [hred]
      exact h0
    | ok s₁ =>
      have hred : applyOp s (Op.transferOp u dto tref outId inId) = s₁ := by
        simp only [applyOp]
        rw [ht]
      rw [hred]
      obtain ⟨sw, rw2, hsw, hrw, ha, hid, hbal, heq⟩ :=
        transfer_ok_shape s u dto tref outId inId s₁ ht
      subst heq
      intro w hwm
      rcases mem_saveRow Wallet.id hwm with rfl | hwm2
      · show 0 ≤ rw2.balance + dto.amount
        have hrmem : rw2 ∈ s.wallets := List.mem_of_find?_eq_some
          (show s.wallets.find? (fun x => decide (x.walletNumber = dto.wallet_number)) =
            some rw2 from hrw)
        have h1 : 0 ≤ rw2.balance := h0 rw2 hrmem
        have h2 : (100 : Rat) ≤ dto.amount := not_lt.mp ha
        have h3 : (0 : Rat) ≤ dto.amount := le_trans (by norm_num) h2
        exact add_nonneg h1 h3
      · rcases mem_saveRow Wallet.id hwm2 with rfl | hwm3
        · show 0 ≤ sw.balance - dto.amount
          have h4 : dto.amount ≤ sw.balance := not_lt.mp hbal
          linarith
        · exact h0 w hwm3
  | webhook e now =>
    cases e with
    | chargeSuccess d =>
      have hda : 0 ≤ d.amount := of_decide_eq_true hop
      cases hc : handleSuccessfulCharge s d now with
      | none =>
        have hred : applyOp s (Op.webhook (WebhookEvent.chargeSuccess d) now) = s := by
          simp only [applyOp, handlePaystackWebhook]
          rw [hc]
        rw [hred]
        exact h0
      | some r =>
        cases r with
        | error e2 =>
          have hred : applyOp s (Op.webhook (WebhookEvent.chargeSuccess d) now) = s := by
            simp only [applyOp, handlePaystackWebhook]
            rw [hc]
          rw [hred]
          exact h0
        | ok s₁ =>
          have hred : applyOp s (Op.webhook (WebhookEvent.chargeSuccess d) now) = s₁ := by
            simp only [applyOp, handlePaystackWebhook]
            rw [hc]
          rw [hred]
          rcases successCharge_ok_shape s d now s₁ hc with
            ⟨t, ht, hst, rfl⟩ | ⟨t, w, ht, hst, hw, rfl⟩
          · exact h0
          · intro x hxm
            rcases mem_saveRow Wallet.id hxm with rfl | hxm2
            · show 0 ≤ w.balance + d.amount / 100
              have hwmem : w ∈ s.wallets := List.mem_of_find?_eq_some
                (show s.wallets.find? (fun x => decide (x.id = t.walletId)) = some w from hw)
              have h1 : 0 ≤ w.balance := h0 w hwmem
              have h2 : (0 : Rat) ≤ d.amount / 100 := div_nonneg hda (by norm_num)
              exact add_nonneg h1 h2
            · exact h0 x hxm2
    | chargeFailed d =>
      cases hc : handleFailedCharge s d now with
      | error e2 =>
        have hred : applyOp s (Op.webhook (WebhookEvent.chargeFailed d) now) = s := by
          simp only [applyOp, handlePaystackWebhook]
          rw [hc]
        rw [hred]
        exact h0
      | ok s₁ =>
        have hred : applyOp s (Op.webhook (WebhookEvent.chargeFailed d) now) = s₁ := by
          simp only [applyOp, handlePaystackWebhook]
          rw [hc]
        rw [hred]
        rcases failedCharge_ok_shape s d now s₁ hc with ⟨t, ht, hst, rfl⟩ | ⟨t, ht, hst, rfl⟩
        · exact h0
        · exact h0
    | unhandled ev =>
      exact h0

/-- C3: starting from wallets with non-negative balances, no sequence of
committed GetBalance, InitiateDeposit, Transfer and webhook-reconciliation
operations (with monetary, non-negative notified webhook amounts) ever
produces a committed state with a wallet balance below zero; and in
particular Transfer refuses with the insufficient-balance error (the
InsufficientFunds case) whenever the sender balance is less than the
amount. -/
theorem no_negative_balances (s : DBState) (ops : List Op)
    (h0 : nonNegBalances s) (hops : ∀ op ∈ ops, opAmountsOk op = true) :
    nonNegBalances (ops.foldl applyOp s) ∧
    (∀ s₂ u dto tref outId inId sw rw,
      ¬ (dto : TransferDto).amount < 100 →
      findWalletByUserId s₂ (u : User).id = some sw →
      findWalletByNumber s₂ dto.wallet_number = some rw →
      sw.id ≠ rw.id →
      sw.balance < dto.amount →
      transfer s₂ u dto tref outId inId =
        Except.error (WalletError.badRequest "Insufficient balance")) := by
  constructor
  · have main : ∀ (l : List Op) (st : DBState), nonNegBalances st →
        (∀ op ∈ l, opAmountsOk op = true) → nonNegBalances (l.foldl applyOp st) := by
      intro l
      induction l with
      | nil =>
        intro st h _
        exact h
      | cons op rest ih =>
        intro st h hl
        simp only [List.foldl_cons]
        exact ih (applyOp st op)
          (applyOp_nonNeg st op h (hl op (List.mem_cons_self op rest)))
          (fun o ho => hl o (List.mem_cons_of_mem op ho))
    exact main ops s h0 hops
  · intro s₂ u dto tref outId inId sw rw ha hsw hrw hid hbal
    simp only [transfer, if_neg ha, hsw, hrw, if_neg hid, if_pos hbal]

/-- C3 witness: the non-negativity theorem applied to the concrete sequence
deposit, success webhook, transfer over the two concrete wallets. -/
theorem no_negative_balances_witness :
    nonNegBalances (c3Ops.foldl applyOp baseState) :=
  (no_negative_balances baseState c3Ops (by decide) (by decide)).1

/-- C8: getDepositStatus fails NotFound when no entry with the reference
exists; when the entry exists but its owning wallet does not belong to the
caller it fails with the constant Unauthorized BadRequest error - a result
that carries none of the entry data (the right-hand side does not mention
the entry at all); and whenever an entry with the reference exists the call
never fails with the NotFound error. -/
theorem deposit_status_cross_tenant_isolation :
    (∀ s u ref, findTransactionByReference s ref = none →
      getDepositStatus s u ref =
        some (Except.error (WalletError.notFound "Transaction not found"))) ∧
    (∀ s u ref t w, findTransactionByReference s ref = some t →
      findWalletById s t.walletId = some w → w.userId ≠ (u : User).id →
      getDepositStatus s u ref =
        some (Except.error (WalletError.badRequest "Unauthorized access to transaction"))) ∧
    (∀ s u ref t, findTransactionByReference s ref = some t →
      getDepositStatus s u ref ≠
        some (Except.error (WalletError.notFound "Transaction not found"))) := by
  refine ⟨?_, ?_, ?_⟩
  · intro s u ref h
    simp only [getDepositStatus, h]
  · intro s u ref t w ht hw hne
    simp only [getDepositStatus, ht, hw, if_pos hne]
  · intro s u ref t ht
    cases hfw : findWalletById s t.walletId with
    | none =>
      have : getDepositStatus s u ref = none := by
        simp only [getDepositStatus, ht, hfw]
      rw [this]
      simp
    | some w =>
      by_cases hu : w.userId ≠ u.id
      · have : getDepositStatus s u ref =
            some (Except.error (WalletError.badRequest "Unauthorized access to transaction")) := by
          simp only [getDepositStatus, ht, hfw, if_pos hu]
        rw [this]
        simp
      · have : getDepositStatus s u ref =
            some (Except.ok
              { reference := t.reference
                status := t.status
                amount := t.amount
                metadata := t.metadata }) := by
          simp only [getDepositStatus, ht, hfw, if_neg hu]
        rw [this]
        simp

/-- C8 witness: user B querying the reference of the entry owned by user A
gets the Unauthorized error at the concrete state. -/
theorem deposit_status_cross_tenant_isolation_witness :
    getDepositStatus depState bob "TXN_REF_1" =
      some (Except.error (WalletError.badRequest "Unauthorized access to transaction")) :=
  deposit_status_cross_tenant_isolation.2.1 depState bob "TXN_REF_1" pendingDep wA rfl rfl
    (by decide)

end WalletService
